import Mathlib

/-!
Verification of the bio-mcp-bwa server (src/server.py) against its
natural-language specification.

The development shallowly embeds the server's five tool handlers
(`_run_index`, `_run_mem`, `_run_aln`, `_run_samse`, `_run_sampe`) and the
`call_tool` dispatcher.  The external `bwa` binary, the filesystem and the
scheduler are modelled as oracles:

* `FS` — a snapshot of the filesystem mapping paths to byte sizes;
* `RunOutcome` — what happened to the spawned child process: it completed
  with an exit code, captured diagnostic text and output content, or the
  wall-clock timeout expired (in Python, `asyncio.wait_for` raises
  `asyncio.TimeoutError`), or the spawn itself failed with an OS error
  message;
* `tmp` — the fresh temporary-directory name chosen by
  `tempfile.TemporaryDirectory`.

Each handler returns the response value together with a `Trace` recording
the argument vectors spawned, any kill/terminate actions on children,
and the temporary directories created and removed, so that the
process-hygiene properties of the spec can be stated.
-/

namespace BwaMcp

/-- `ServerSettings` from server.py (pydantic `BaseSettings`). -/
structure ServerSettings where
  max_file_size : Nat := 50000000000
  temp_dir : Option String := none
  timeout : Nat := 3600
  bwa_path : String := "bwa"
deriving Repr, DecidableEq

/-- A JSON-ish argument value as delivered by the MCP layer. -/
inductive JVal
  | s (v : String)
  | i (v : Int)
deriving Repr, DecidableEq

/-- Python `str(...)` / f-string rendering of an argument value. -/
def JVal.toText : JVal → String
  | .s v => v
  | .i v => toString v

/-- The `arguments` dict: an association list of parameter names to values. -/
def Args := List (String × JVal)

/-- Filesystem snapshot: paths that exist, with their byte sizes. -/
def FS := List (String × Nat)

/-- Python dict lookup: first binding of the key, if any. -/
def lookupKey : List (String × JVal) → String → Option JVal
  | [], _ => none
  | (k, v) :: rest, key => if k = key then some v else lookupKey rest key

/-- `st_size` of a path in the snapshot, `none` when the path is absent. -/
def fileSize? : FS → String → Option Nat
  | [], _ => none
  | (p, n) :: rest, q => if p = q then some n else fileSize? rest q

/-- `Path(p).exists()` over the snapshot. -/
def fileExists (fs : FS) (p : String) : Bool := (fileSize? fs p).isSome

/-- Python truthiness of `arguments.get(k)` for the value shapes we model. -/
def truthy : Option JVal → Bool
  | none => false
  | some (.s v) => v != ""
  | some (.i v) => v != 0

/-- `arguments.get(k, d)`: the stored value when the key is present, else `d`. -/
def getD (args : Args) (k : String) (d : JVal) : JVal :=
  (lookupKey args k).getD d

/-- Outcome of awaiting the spawned child process, as seen by the handler. -/
inductive RunOutcome
  | completed (rc : Int) (errText : String) (outLines : List String) (outSize : Nat)
  | timedOut
  | spawnFail (msg : String)
deriving Repr, DecidableEq

/-- A handler's response: `TextContent` (success) or `ErrorContent`. -/
inductive Response
  | text (t : String)
  | err (t : String)
deriving Repr, DecidableEq

/-- Observable process/resource actions performed during one call. -/
structure Trace where
  spawns : List (List String)
  kills : List Nat
  tmpsCreated : List String
  tmpsRemoved : List String
deriving Repr, DecidableEq

/-- The empty trace: nothing spawned, nothing killed, no temp dirs touched. -/
def Trace.empty : Trace := ⟨[], [], [], []⟩

/-- Whether a path still exists after the call: it is deleted exactly when
some removed temporary directory is a prefix of it. -/
def survives (tr : Trace) (p : String) : Bool :=
  tr.tmpsRemoved.all (fun d => !(d.data.isPrefixOf p.data))

/-- Comma-group a reversed digit list, Python `{n:,}` style. -/
def commaRev : List Char → Nat → List Char
  | [], _ => []
  | c :: cs, k => if k = 3 then ',' :: c :: commaRev cs 1 else c :: commaRev cs (k + 1)

/-- Python `f"{n:,}"`: thousands-separated decimal rendering. -/
def fmtComma (n : Nat) : String :=
  String.mk ((commaRev (Nat.toDigits 10 n).reverse 0).reverse)

/-- The success summary of `_run_index` (server.py lines 231-236). -/
def indexSuccessText (reference algorithm : String) (indexFiles : List String) : String :=
  "BWA index created successfully!\n\n" ++
  "Reference: " ++ reference ++ "\n" ++
  "Algorithm: " ++ algorithm ++ "\n" ++
  "Index files created:\n" ++
  String.intercalate "\n" (indexFiles.map (fun f => "  • " ++ f))

/-- Algorithm selection of `_run_index` (server.py line 206):
`arguments.get("algorithm", "bwtsw" if file_size > 2_000_000_000 else "is")`. -/
def chooseAlgorithm (args : Args) (fileSize : Nat) : String :=
  match lookupKey args "algorithm" with
  | some a => a.toText
  | none => if fileSize > 2000000000 then "bwtsw" else "is"

/-- `_run_index` (server.py lines 198-240). `fsAfter` is the filesystem
snapshot after the child ran, used for listing the created index files. -/
def runIndex (st : ServerSettings) (fs fsAfter : FS) (args : Args)
    (world : RunOutcome) : Response × Trace :=
  match lookupKey args "reference_fasta" with
  | none => (.err "Error: \x27reference_fasta\x27", Trace.empty)
  | some rv =>
    let reference := rv.toText
    match fileSize? fs reference with
    | none => (.err ("Reference file not found: " ++ reference), Trace.empty)
    | some fsize =>
      let algorithm := chooseAlgorithm args fsize
      let cmd := [st.bwa_path, "index", "-a", algorithm, reference]
      match world with
      | .timedOut => (.err "Error: ", ⟨[cmd], [], [], []⟩)
      | .spawnFail m => (.err ("Error: " ++ m), ⟨[cmd], [], [], []⟩)
      | .completed rc errText _ _ =>
        if rc ≠ 0 then
          (.err ("BWA index failed: " ++ errText), ⟨[cmd], [], [], []⟩)
        else
          let indexFiles := ([".amb", ".ann", ".bwt", ".pac", ".sa"].filterMap
            (fun suf =>
              let f := reference ++ suf
              if fileExists fsAfter f then some f else none))
          (.text (indexSuccessText reference algorithm indexFiles),
            ⟨[cmd], [], [], []⟩)

/-- The number of alignment records `_run_mem` counts (server.py lines
295-296): output lines not starting with the header marker `@`. -/
def samCount (outLines : List String) : Nat :=
  (outLines.filter (fun l => !(l.startsWith "@"))).length

/-- The success summary of `_run_mem` (server.py lines 298-305). -/
def memSuccessText (outputSam : String) (size count : Nat) (threads : String)
    (paired : Bool) : String :=
  "BWA-MEM alignment completed!\n\n" ++
  "Output file: " ++ outputSam ++ "\n" ++
  "Output size: " ++ fmtComma size ++ " bytes\n" ++
  "Alignment records: " ++ fmtComma count ++ "\n" ++
  "Threads used: " ++ threads ++ "\n" ++
  "Paired-end: " ++ (if paired then "Yes" else "No")

/-- The argument vector `_run_mem` builds (server.py lines 255-273), given
the already-validated reference and first-reads paths.  The second reads
path is appended only when the `reads2` argument is truthy and the path
exists on the filesystem. -/
def memCmd (st : ServerSettings) (fs : FS) (args : Args)
    (reference reads1 : String) : List String :=
  let base := [st.bwa_path, "mem",
    "-t", (getD args "threads" (.i 4)).toText,
    "-k", (getD args "min_seed_length" (.i 19)).toText,
    "-w", (getD args "band_width" (.i 100)).toText]
  let withRG := if truthy (lookupKey args "read_group") then
      base ++ ["-R", (getD args "read_group" (.s "")).toText]
    else base
  let positional := withRG ++ [reference, reads1]
  if truthy (lookupKey args "reads2") then
    match lookupKey args "reads2" with
    | some v => if fileExists fs v.toText then positional ++ [v.toText] else positional
    | none => positional
  else positional

/-- `_run_mem` (server.py lines 242-309).  `tmp` is the fresh directory
name chosen by `tempfile.TemporaryDirectory`; the `with` block removes it
on every exit path, which the trace records. -/
def runMem (st : ServerSettings) (fs : FS) (args : Args)
    (world : RunOutcome) (tmp : String) : Response × Trace :=
  match lookupKey args "reference" with
  | none => (.err "Error: \x27reference\x27", Trace.empty)
  | some rv =>
    match lookupKey args "reads1" with
    | none => (.err "Error: \x27reads1\x27", Trace.empty)
    | some r1v =>
      let reference := rv.toText
      let reads1 := r1v.toText
      if ¬ fileExists fs reference then
        (.err ("Reference not found: " ++ reference), Trace.empty)
      else if ¬ fileExists fs reads1 then
        (.err ("Reads file not found: " ++ reads1), Trace.empty)
      else
        let outputSam := tmp ++ "/alignment.sam"
        let cmd := memCmd st fs args reference reads1
        let tr : Trace := ⟨[cmd], [], [tmp], [tmp]⟩
        match world with
        | .timedOut => (.err "Error: ", tr)
        | .spawnFail m => (.err ("Error: " ++ m), tr)
        | .completed rc errText outLines outSize =>
          if rc ≠ 0 then (.err ("BWA mem failed: " ++ errText), tr)
          else
            (.text (memSuccessText outputSam outSize (samCount outLines)
              (getD args "threads" (.i 4)).toText
              (truthy (lookupKey args "reads2"))), tr)

/-- The success summary of `_run_aln` (server.py lines 350-355). -/
def alnSuccessText (outputSai : String) (size : Nat) : String :=
  "BWA aln completed!\n\n" ++
  "Output SAI file: " ++ outputSai ++ "\n" ++
  "Output size: " ++ fmtComma size ++ " bytes\n" ++
  "Use bwa_samse/sampe to convert to SAM format"

/-- `_run_aln` (server.py lines 311-359). -/
def runAln (st : ServerSettings) (fs : FS) (args : Args)
    (world : RunOutcome) (tmp : String) : Response × Trace :=
  match lookupKey args "reference" with
  | none => (.err "Error: \x27reference\x27", Trace.empty)
  | some rv =>
    match lookupKey args "reads" with
    | none => (.err "Error: \x27reads\x27", Trace.empty)
    | some rdv =>
      let reference := rv.toText
      let reads := rdv.toText
      if ¬ fileExists fs reference then
        (.err ("Reference not found: " ++ reference), Trace.empty)
      else if ¬ fileExists fs reads then
        (.err ("Reads file not found: " ++ reads), Trace.empty)
      else
        let outputSai := tmp ++ "/alignment.sai"
        let cmd := [st.bwa_path, "aln",
          "-t", (getD args "threads" (.i 4)).toText,
          "-n", (getD args "max_mismatches" (.i 4)).toText,
          "-o", (getD args "max_gap_opens" (.i 1)).toText,
          reference, reads]
        let tr : Trace := ⟨[cmd], [], [tmp], [tmp]⟩
        match world with
        | .timedOut => (.err "Error: ", tr)
        | .spawnFail m => (.err ("Error: " ++ m), tr)
        | .completed rc errText _ outSize =>
          if rc ≠ 0 then (.err ("BWA aln failed: " ++ errText), tr)
          else (.text (alnSuccessText outputSai outSize), tr)

/-- The success summary of `_run_samse` (server.py lines 398-402). -/
def samseSuccessText (outputSam : String) (size : Nat) : String :=
  "BWA samse completed!\n\n" ++
  "Output SAM file: " ++ outputSam ++ "\n" ++
  "Output size: " ++ fmtComma size ++ " bytes"

/-- The existence check loop of `_run_samse` / `_run_sampe` (server.py
lines 367-369, 416-418): the first path in the list that does not exist. -/
def firstAbsent (fs : FS) : List String → Option String
  | [] => none
  | p :: rest => if fileExists fs p then firstAbsent fs rest else some p

/-- `_run_samse` (server.py lines 361-406). -/
def runSamse (st : ServerSettings) (fs : FS) (args : Args)
    (world : RunOutcome) (tmp : String) : Response × Trace :=
  match lookupKey args "reference" with
  | none => (.err "Error: \x27reference\x27", Trace.empty)
  | some rv =>
    match lookupKey args "sai_file" with
    | none => (.err "Error: \x27sai_file\x27", Trace.empty)
    | some sv =>
      match lookupKey args "reads" with
      | none => (.err "Error: \x27reads\x27", Trace.empty)
      | some rdv =>
        let reference := rv.toText
        let saiFile := sv.toText
        let reads := rdv.toText
        match firstAbsent fs [reference, saiFile, reads] with
        | some p => (.err ("File not found: " ++ p), Trace.empty)
        | none =>
          let outputSam := tmp ++ "/alignment.sam"
          let cmd := [st.bwa_path, "samse", reference, saiFile, reads]
          let tr : Trace := ⟨[cmd], [], [tmp], [tmp]⟩
          match world with
          | .timedOut => (.err "Error: ", tr)
          | .spawnFail m => (.err ("Error: " ++ m), tr)
          | .completed rc errText _ outSize =>
            if rc ≠ 0 then (.err ("BWA samse failed: " ++ errText), tr)
            else (.text (samseSuccessText outputSam outSize), tr)

/-- The success summary of `_run_sampe` (server.py lines 449-453). -/
def sampeSuccessText (outputSam : String) (size : Nat) : String :=
  "BWA sampe completed!\n\n" ++
  "Output SAM file: " ++ outputSam ++ "\n" ++
  "Output size: " ++ fmtComma size ++ " bytes"

/-- `_run_sampe` (server.py lines 408-457). -/
def runSampe (st : ServerSettings) (fs : FS) (args : Args)
    (world : RunOutcome) (tmp : String) : Response × Trace :=
  match lookupKey args "reference" with
  | none => (.err "Error: \x27reference\x27", Trace.empty)
  | some rv =>
    match lookupKey args "sai_file1" with
    | none => (.err "Error: \x27sai_file1\x27", Trace.empty)
    | some s1v =>
      match lookupKey args "sai_file2" with
      | none => (.err "Error: \x27sai_file2\x27", Trace.empty)
      | some s2v =>
        match lookupKey args "reads1" with
        | none => (.err "Error: \x27reads1\x27", Trace.empty)
        | some r1v =>
          match lookupKey args "reads2" with
          | none => (.err "Error: \x27reads2\x27", Trace.empty)
          | some r2v =>
            let reference := rv.toText
            let sai1 := s1v.toText
            let sai2 := s2v.toText
            let reads1 := r1v.toText
            let reads2 := r2v.toText
            match firstAbsent fs [reference, sai1, sai2, reads1, reads2] with
            | some p => (.err ("File not found: " ++ p), Trace.empty)
            | none =>
              let outputSam := tmp ++ "/alignment.sam"
              let cmd := [st.bwa_path, "sampe", reference, sai1, sai2, reads1, reads2]
              let tr : Trace := ⟨[cmd], [], [tmp], [tmp]⟩
              match world with
              | .timedOut => (.err "Error: ", tr)
              | .spawnFail m => (.err ("Error: " ++ m), tr)
              | .completed rc errText _ outSize =>
                if rc ≠ 0 then (.err ("BWA sampe failed: " ++ errText), tr)
                else (.text (sampeSuccessText outputSam outSize), tr)

/-- The five tools registered in the `call_tool` dispatch table. -/
inductive OpName
  | idx | mem | aln | samse | sampe
deriving Repr, DecidableEq

/-- Dispatch to one handler, uniform signature over all five operations. -/
def runOp : OpName → ServerSettings → FS → FS → Args → RunOutcome → String →
    Response × Trace
  | .idx, st, fs, fsAfter, args, world, _ => runIndex st fs fsAfter args world
  | .mem, st, fs, _, args, world, tmp => runMem st fs args world tmp
  | .aln, st, fs, _, args, world, tmp => runAln st fs args world tmp
  | .samse, st, fs, _, args, world, tmp => runSamse st fs args world tmp
  | .sampe, st, fs, _, args, world, tmp => runSampe st fs args world tmp

/-- The `handlers` dict of `call_tool` (server.py lines 184-190). -/
def handlerFor (name : String) : Option OpName :=
  if name = "bwa_index" then some .idx
  else if name = "bwa_mem" then some .mem
  else if name = "bwa_aln" then some .aln
  else if name = "bwa_samse" then some .samse
  else if name = "bwa_sampe" then some .sampe
  else none

/-- The `call_tool` dispatcher (server.py lines 182-196): every call yields
a one-element response list; unknown tool names yield an error naming the
tool. -/
def callTool (st : ServerSettings) (fs fsAfter : FS) (name : String)
    (args : Args) (world : RunOutcome) (tmp : String) :
    List Response × Trace :=
  match handlerFor name with
  | some op =>
    let r := runOp op st fs fsAfter args world tmp
    ([r.1], r.2)
  | none => ([.err ("Unknown tool: " ++ name)], Trace.empty)

/-- The required path-valued parameters of each operation, in the order the
handler looks them up and checks their existence. -/
def requiredPathFields : OpName → List String
  | .idx => ["reference_fasta"]
  | .mem => ["reference", "reads1"]
  | .aln => ["reference", "reads"]
  | .samse => ["reference", "sai_file", "reads"]
  | .sampe => ["reference", "sai_file1", "sai_file2", "reads1", "reads2"]

/-- The first failing required path parameter of a call: the first field
whose key is absent from the arguments (Python raises `KeyError` during the
lookups, which all precede the existence checks), or, when all keys are
present, the path value of the first field whose file does not exist.
Returns the identifying text: the key name for a missing key, the path
string for a missing file. -/
def firstBad (fields : List String) (args : Args) (fs : FS) : Option String :=
  match fields.find? (fun f => (lookupKey args f).isNone) with
  | some f => some f
  | none =>
    (fields.filterMap (fun f =>
      match lookupKey args f with
      | some v => if fileExists fs v.toText then none else some v.toText
      | none => none)).head?

/-! ## Helper lemmas -/

/-- Counting the lines that do not start with `@` is the same as the total
line count minus the count of lines that do start with `@`. -/
lemma samCount_eq_sub (lines : List String) :
    samCount lines =
      lines.length - (lines.filter (fun l => l.startsWith "@")).length := by
  unfold samCount
  induction lines with
  | nil => rfl
  | cons x xs ih =>
    have hle := List.length_filter_le (fun l => l.startsWith "@") xs
    cases h : x.startsWith "@" <;> simp [List.filter_cons, h, ih]
    all_goals omega

/-- Every handler's trace removes exactly the temporary directories it
created, on every control path. -/
lemma runOp_tmp_balanced (op : OpName) (st : ServerSettings) (fs fsAfter : FS)
    (args : Args) (world : RunOutcome) (tmp : String) :
    (runOp op st fs fsAfter args world tmp).2.tmpsCreated =
      (runOp op st fs fsAfter args world tmp).2.tmpsRemoved := by
  cases op <;>
    simp only [runOp, runIndex, runMem, runAln, runSamse, runSampe] <;>
    (repeat' split) <;> rfl

/-- The mem argument vector depends on the settings only through the
binary path. -/
lemma memCmd_settings (st st' : ServerSettings) (hb : st.bwa_path = st'.bwa_path)
    (fs : FS) (args : Args) (reference reads1 : String) :
    memCmd st fs args reference reads1 = memCmd st' fs args reference reads1 := by
  unfold memCmd
  rw [hb]

/-- Handlers read the settings only through the binary path. -/
lemma runOp_settings (op : OpName) (st st' : ServerSettings)
    (hb : st.bwa_path = st'.bwa_path) (fs fsAfter : FS) (args : Args)
    (world : RunOutcome) (tmp : String) :
    runOp op st fs fsAfter args world tmp = runOp op st' fs fsAfter args world tmp := by
  cases op <;> simp only [runOp]
  case idx => unfold runIndex; rw [hb]
  case mem => unfold runMem; simp only [memCmd_settings st st' hb]
  case aln => unfold runAln; rw [hb]
  case samse => unfold runSamse; rw [hb]
  case sampe => unfold runSampe; rw [hb]

/-- Every handler turns a spawn failure into an error response. -/
lemma runOp_spawnFail_err (op : OpName) (st : ServerSettings) (fs fsAfter : FS)
    (args : Args) (m tmp : String) :
    ∃ t, (runOp op st fs fsAfter args (.spawnFail m) tmp).1 = .err t := by
  cases op <;>
    simp only [runOp, runIndex, runMem, runAln, runSamse, runSampe] <;>
    (repeat' split) <;> exact ⟨_, rfl⟩

/-- On timeout no kill action is recorded, and whenever a child was spawned
the handler returns the generic catch-all error text. -/
lemma runOp_timeout_generic (op : OpName) (st : ServerSettings) (fs fsAfter : FS)
    (args : Args) (tmp : String) :
    (runOp op st fs fsAfter args .timedOut tmp).2.kills = [] ∧
      ((runOp op st fs fsAfter args .timedOut tmp).2.spawns ≠ [] →
        (runOp op st fs fsAfter args .timedOut tmp).1 = .err "Error: ") := by
  cases op <;>
    simp only [runOp, runIndex, runMem, runAln, runSamse, runSampe] <;>
    (repeat' split) <;> refine ⟨rfl, fun h => ?_⟩ <;>
    first
    | rfl
    | exact (h rfl).elim

/-! ## Claim theorems -/

/-- C7: for the mem-align operation, given a produced SAM output file with
N lines of which H begin with `@`, the alignment-record count reported in
the success summary equals N − H exactly. -/
theorem mem_alignment_record_count (st : ServerSettings) (fs : FS) (args : Args)
    (tmp : String) (rv r1v : JVal) (et : String) (outLines : List String) (size : Nat)
    (h1 : lookupKey args "reference" = some rv)
    (h2 : lookupKey args "reads1" = some r1v)
    (h3 : fileExists fs rv.toText = true)
    (h4 : fileExists fs r1v.toText = true) :
    (runMem st fs args (.completed 0 et outLines size) tmp).1 =
      .text (memSuccessText (tmp ++ "/alignment.sam") size
        (outLines.length - (outLines.filter (fun l => l.startsWith "@")).length)
        (getD args "threads" (.i 4)).toText (truthy (lookupKey args "reads2"))) := by
  simp [runMem, h1, h2, h3, h4, samCount_eq_sub]

/-- C7 witness: a concrete empty output file (N = 0, H = 0) reports zero
alignment records. -/
theorem mem_alignment_record_count_witness :
    (runMem {} [("ref", 1), ("r1", 1)]
      [("reference", .s "ref"), ("reads1", .s "r1")]
      (.completed 0 "" [] 0) "/t").1 =
      .text (memSuccessText "/t/alignment.sam" 0 0 "4" false) :=
  mem_alignment_record_count {} [("ref", 1), ("r1", 1)]
    [("reference", .s "ref"), ("reads1", .s "r1")] "/t"
    (.s "ref") (.s "r1") "" [] 0 rfl rfl rfl rfl

/-- C8: for every call, the temporary directories created for that call are
all removed by the time the call returns, on every exit path — success,
handled error, timeout, and fault. -/
theorem tmpdir_always_removed (st : ServerSettings) (fs fsAfter : FS)
    (name : String) (args : Args) (world : RunOutcome) (tmp : String) :
    (callTool st fs fsAfter name args world tmp).2.tmpsCreated =
      (callTool st fs fsAfter name args world tmp).2.tmpsRemoved := by
  unfold callTool
  cases h : handlerFor name with
  | none => rfl
  | some op => simpa using runOp_tmp_balanced op st fs fsAfter args world tmp

/-- C10: the `max_file_size` setting is never read by any operation — two
calls identical except for `max_file_size` produce identical responses and
identical traces. -/
theorem max_file_size_not_read (st : ServerSettings) (m : Nat) (fs fsAfter : FS)
    (name : String) (args : Args) (world : RunOutcome) (tmp : String) :
    callTool { st with max_file_size := m } fs fsAfter name args world tmp =
      callTool st fs fsAfter name args world tmp := by
  unfold callTool
  cases handlerFor name with
  | none => rfl
  | some op => simp only [runOp_settings op { st with max_file_size := m } st rfl]

/-- C5: every incoming call yields exactly one terminal response; an
unrecognized operation name yields an error response naming that
operation; and a runtime fault (spawn failure) is converted into a
structured error response rather than propagating. -/
theorem dispatcher_total (st : ServerSettings) (fs fsAfter : FS) (name : String)
    (args : Args) (world : RunOutcome) (tmp : String) :
    (callTool st fs fsAfter name args world tmp).1.length = 1 ∧
    (handlerFor name = none →
      (callTool st fs fsAfter name args world tmp).1 =
        [.err ("Unknown tool: " ++ name)]) ∧
    (∀ m, world = .spawnFail m →
      ∃ t, (callTool st fs fsAfter name args world tmp).1 = [.err t]) := by
  unfold callTool
  cases h : handlerFor name with
  | none =>
    exact ⟨rfl, fun _ => rfl, fun m _ => ⟨"Unknown tool: " ++ name, rfl⟩⟩
  | some op =>
    refine ⟨rfl, fun hn => ?_, fun m hm => ?_⟩
    · exact Option.noConfusion hn
    · subst hm
      obtain ⟨t, ht⟩ := runOp_spawnFail_err op st fs fsAfter args m tmp
      exact ⟨t, by simp [ht]⟩

/-- C5 witness: an unknown tool name is answered with an error naming it,
and a known tool whose spawn fails is answered with a structured error. -/
theorem dispatcher_total_witness :
    (callTool {} [] [] "bwa_foo" [] (.spawnFail "boom") "/t").1 =
      [.err "Unknown tool: bwa_foo"] ∧
    ∃ t, (callTool {} [("ref", 1)] [] "bwa_index"
      [("reference_fasta", .s "ref")] (.spawnFail "boom") "/t").1 = [.err t] :=
  ⟨(dispatcher_total {} [] [] "bwa_foo" [] (.spawnFail "boom") "/t").2.1 (by decide),
   (dispatcher_total {} [("ref", 1)] [] "bwa_index"
      [("reference_fasta", .s "ref")] (.spawnFail "boom") "/t").2.2 "boom" rfl⟩

/-- C2 counterexample: on a call whose child times out, the trace records
no kill/terminate action on the child, and the returned error is the
catch-all text `Error: ` — identical to the error produced by a spawn
failure with an empty message, so the timeout is neither a distinct
classification nor accompanied by termination of the child. -/
theorem timeout_not_distinct_counterexample :
    (runMem {} [("ref", 1), ("r1", 1)]
      [("reference", .s "ref"), ("reads1", .s "r1")] .timedOut "/t").2.kills = [] ∧
    (runMem {} [("ref", 1), ("r1", 1)]
      [("reference", .s "ref"), ("reads1", .s "r1")] .timedOut "/t").1 =
      .err "Error: " ∧
    (runMem {} [("ref", 1), ("r1", 1)]
      [("reference", .s "ref"), ("reads1", .s "r1")] (.spawnFail "") "/t").1 =
      .err "Error: " :=
  ⟨rfl, rfl, rfl⟩

/-- C2 (amended): when the child process exceeds the timeout, the child is
not terminated (the handler performs no kill action — `asyncio.wait_for`
merely cancels the awaiting coroutine), and the call returns the generic
catch-all error `Error: ` (the timeout exception rendered with its empty
message), conflated with other runtime faults rather than distinctly
classified. -/
theorem timeout_generic_error (op : OpName) (st : ServerSettings) (fs fsAfter : FS)
    (args : Args) (tmp : String)
    (hs : (runOp op st fs fsAfter args .timedOut tmp).2.spawns ≠ []) :
    (runOp op st fs fsAfter args .timedOut tmp).2.kills = [] ∧
    (runOp op st fs fsAfter args .timedOut tmp).1 = .err "Error: " := by
  obtain ⟨hk, himp⟩ := runOp_timeout_generic op st fs fsAfter args tmp
  exact ⟨hk, himp hs⟩

/-- C2 witness: a concrete mem-align call that spawned a child and timed
out returns the generic error and records no kill. -/
theorem timeout_generic_error_witness :
    (runOp .mem {} [("ref", 1), ("r1", 1)] []
      [("reference", .s "ref"), ("reads1", .s "r1")] .timedOut "/t").2.kills = [] ∧
    (runOp .mem {} [("ref", 1), ("r1", 1)] []
      [("reference", .s "ref"), ("reads1", .s "r1")] .timedOut "/t").1 =
      .err "Error: " :=
  timeout_generic_error .mem {} [("ref", 1), ("r1", 1)] []
    [("reference", .s "ref"), ("reads1", .s "r1")] "/t" (by decide)

/-- C3 counterexample: with a reference file of exactly 2,000,000,000
bytes and no explicit algorithm, the spawned command selects `is`, not
`bwtsw` — the size-based default uses a strict comparison, so "at or above
2 GB" does not select `bwtsw`. -/
theorem index_threshold_counterexample :
    (runIndex {} [("ref.fa", 2000000000)] []
      [("reference_fasta", .s "ref.fa")] (.completed 0 "" [] 0)).2.spawns =
      [["bwa", "index", "-a", "is", "ref.fa"]] := rfl

/-- C3 (amended): with no explicit algorithm parameter, the chosen
algorithm is `is` when the reference size is at most 2,000,000,000 bytes
(including exactly 2 GB) and `bwtsw` only when strictly larger; an
explicit algorithm parameter is always used regardless of file size. -/
theorem index_algorithm_choice (st : ServerSettings) (fs fsAfter : FS)
    (args : Args) (world : RunOutcome) (rv : JVal) (size : Nat)
    (h1 : lookupKey args "reference_fasta" = some rv)
    (h2 : fileSize? fs rv.toText = some size) :
    (lookupKey args "algorithm" = none →
      (runIndex st fs fsAfter args world).2.spawns =
        [[st.bwa_path, "index", "-a",
          (if size > 2000000000 then "bwtsw" else "is"), rv.toText]]) ∧
    (∀ a, lookupKey args "algorithm" = some a →
      (runIndex st fs fsAfter args world).2.spawns =
        [[st.bwa_path, "index", "-a", a.toText, rv.toText]]) := by
  refine ⟨fun ha => ?_, fun a ha => ?_⟩ <;>
    cases world <;>
    simp [runIndex, chooseAlgorithm, h1, h2, ha] <;>
    (try split) <;>
    rfl

/-- C3 witness: just above the threshold the default is `bwtsw`; an
explicit `is` overrides it at the same size. -/
theorem index_algorithm_choice_witness :
    (runIndex {} [("big.fa", 2000000001)] []
      [("reference_fasta", .s "big.fa")] (.completed 0 "" [] 0)).2.spawns =
      [["bwa", "index", "-a", "bwtsw", "big.fa"]] ∧
    (runIndex {} [("big.fa", 2000000001)] []
      [("reference_fasta", .s "big.fa"), ("algorithm", .s "is")]
      (.completed 0 "" [] 0)).2.spawns =
      [["bwa", "index", "-a", "is", "big.fa"]] :=
  ⟨(index_algorithm_choice {} [("big.fa", 2000000001)] []
      [("reference_fasta", .s "big.fa")] (.completed 0 "" [] 0)
      (.s "big.fa") 2000000001 rfl rfl).1 rfl,
   (index_algorithm_choice {} [("big.fa", 2000000001)] []
      [("reference_fasta", .s "big.fa"), ("algorithm", .s "is")] (.completed 0 "" [] 0)
      (.s "big.fa") 2000000001 rfl rfl).2 (.s "is") rfl⟩

/-- C1 counterexample: supplying a second reads path that does not exist
produces the same spawned argument vector as omitting it, but NOT the same
success summary — the response differs, because the summary reports
`Paired-end: Yes` (the paired-end flag tests only the presence of the
`reads2` argument, not the existence of the file). -/
theorem mem_reads2_missing_counterexample :
    (runMem {} [("ref", 1), ("r1", 1)]
      [("reference", .s "ref"), ("reads1", .s "r1"), ("reads2", .s "r2")]
      (.completed 0 "" [] 0) "/t").2.spawns =
    (runMem {} [("ref", 1), ("r1", 1)]
      [("reference", .s "ref"), ("reads1", .s "r1")]
      (.completed 0 "" [] 0) "/t").2.spawns ∧
    (runMem {} [("ref", 1), ("r1", 1)]
      [("reference", .s "ref"), ("reads1", .s "r1"), ("reads2", .s "r2")]
      (.completed 0 "" [] 0) "/t").1 ≠
    (runMem {} [("ref", 1), ("r1", 1)]
      [("reference", .s "ref"), ("reads1", .s "r1")]
      (.completed 0 "" [] 0) "/t").1 ∧
    (runMem {} [("ref", 1), ("r1", 1)]
      [("reference", .s "ref"), ("reads1", .s "r1"), ("reads2", .s "r2")]
      (.completed 0 "" [] 0) "/t").1 =
      .text (memSuccessText "/t/alignment.sam" 0 0 "4" true) :=
  ⟨rfl, by decide, rfl⟩

/-- C1 (amended): when the second reads parameter is supplied but names a
file that does not exist, the spawned argument vector is identical to the
one of a call omitting the parameter (no second positional reads
argument), but the success summaries differ in exactly the paired-end
field: the call that supplied the dangling path reports paired-end = Yes,
while the omitting call reports No. -/
theorem mem_reads2_missing_behavior (st : ServerSettings) (fs : FS)
    (args argsNo : Args) (tmp : String) (v rv r1v : JVal) (et : String)
    (lines : List String) (size : Nat)
    (hsame : ∀ k, k ≠ "reads2" → lookupKey args k = lookupKey argsNo k)
    (hv : lookupKey args "reads2" = some v)
    (hvt : truthy (some v) = true)
    (hvx : fileExists fs v.toText = false)
    (hno : lookupKey argsNo "reads2" = none)
    (h1 : lookupKey args "reference" = some rv)
    (h2 : lookupKey args "reads1" = some r1v)
    (h3 : fileExists fs rv.toText = true)
    (h4 : fileExists fs r1v.toText = true) :
    (runMem st fs args (.completed 0 et lines size) tmp).2.spawns =
      (runMem st fs argsNo (.completed 0 et lines size) tmp).2.spawns ∧
    (runMem st fs args (.completed 0 et lines size) tmp).1 =
      .text (memSuccessText (tmp ++ "/alignment.sam") size (samCount lines)
        (getD args "threads" (.i 4)).toText true) ∧
    (runMem st fs argsNo (.completed 0 et lines size) tmp).1 =
      .text (memSuccessText (tmp ++ "/alignment.sam") size (samCount lines)
        (getD argsNo "threads" (.i 4)).toText false) := by
  have h1' : lookupKey argsNo "reference" = some rv := by
    rw [← hsame "reference" (by decide)]
    exact h1
  have h2' : lookupKey argsNo "reads1" = some r1v := by
    rw [← hsame "reads1" (by decide)]
    exact h2
  have hcmd : memCmd st fs args rv.toText r1v.toText =
      memCmd st fs argsNo rv.toText r1v.toText := by
    unfold memCmd getD
    rw [hsame "threads" (by decide), hsame "min_seed_length" (by decide),
        hsame "band_width" (by decide), hsame "read_group" (by decide), hv, hno]
    simp [hvt, hvx, truthy]
  refine ⟨?_, ?_, ?_⟩
  · simp [runMem, h1, h2, h1', h2', h3, h4, hcmd]
  · simp [runMem, h1, h2, h3, h4, hv, hvt]
  · simp [runMem, h1', h2', h3, h4, hno, truthy]

/-- C1 witness: a concrete paired call with a dangling second reads path
against its reads2-omitting twin. -/
theorem mem_reads2_missing_behavior_witness :
    (runMem {} [("ref", 1), ("r1", 1)]
      [("reference", .s "ref"), ("reads1", .s "r1"), ("reads2", .s "r2")]
      (.completed 0 "" [] 0) "/t").2.spawns =
      (runMem {} [("ref", 1), ("r1", 1)]
        [("reference", .s "ref"), ("reads1", .s "r1")]
        (.completed 0 "" [] 0) "/t").2.spawns ∧
    (runMem {} [("ref", 1), ("r1", 1)]
      [("reference", .s "ref"), ("reads1", .s "r1"), ("reads2", .s "r2")]
      (.completed 0 "" [] 0) "/t").1 =
      .text (memSuccessText "/t/alignment.sam" 0 0 "4" true) ∧
    (runMem {} [("ref", 1), ("r1", 1)]
      [("reference", .s "ref"), ("reads1", .s "r1")]
      (.completed 0 "" [] 0) "/t").1 =
      .text (memSuccessText "/t/alignment.sam" 0 0 "4" false) :=
  mem_reads2_missing_behavior {} [("ref", 1), ("r1", 1)]
    [("reference", .s "ref"), ("reads1", .s "r1"), ("reads2", .s "r2")]
    [("reference", .s "ref"), ("reads1", .s "r1")] "/t"
    (.s "r2") (.s "ref") (.s "r1") "" [] 0
    (by intro k hk; simp [lookupKey, Ne.symm hk])
    rfl rfl rfl rfl rfl rfl rfl rfl

/-- C4: for every operation, a call whose parameter set is missing a
required path field, or whose path parameter names a non-existent file,
returns an error whose text contains the first missing field/path, and no
child process is spawned. -/
theorem precondition_first_missing (op : OpName) (st : ServerSettings)
    (fs fsAfter : FS) (args : Args) (world : RunOutcome) (tmp : String)
    (item : String)
    (h : firstBad (requiredPathFields op) args fs = some item) :
    (runOp op st fs fsAfter args world tmp).2.spawns = [] ∧
    ∃ a b, (runOp op st fs fsAfter args world tmp).1 = .err (a ++ item ++ b) := by
  cases op
  case idx =>
    rcases hr : lookupKey args "reference_fasta" with _ | rv
    · simp [firstBad, requiredPathFields, List.find?, hr] at h
      subst h
      exact ⟨by simp [runOp, runIndex, hr, Trace.empty],
        "Error: \x27", "\x27", by simp [runOp, runIndex, hr]⟩
    · cases hf : fileSize? fs rv.toText
      · simp [firstBad, requiredPathFields, List.find?, hr, fileExists, hf] at h
        subst h
        exact ⟨by simp [runOp, runIndex, hr, hf, Trace.empty],
          "Reference file not found: ", "", by simp [runOp, runIndex, hr, hf]⟩
      · simp [firstBad, requiredPathFields, List.find?, hr, fileExists, hf] at h
  case mem =>
    rcases hr : lookupKey args "reference" with _ | rv
    · simp [firstBad, requiredPathFields, List.find?, hr] at h
      subst h
      exact ⟨by simp [runOp, runMem, hr, Trace.empty],
        "Error: \x27", "\x27", by simp [runOp, runMem, hr]⟩
    · rcases hd : lookupKey args "reads1" with _ | r1v
      · simp [firstBad, requiredPathFields, List.find?, hr, hd] at h
        subst h
        exact ⟨by simp [runOp, runMem, hr, hd, Trace.empty],
          "Error: \x27", "\x27", by simp [runOp, runMem, hr, hd]⟩
      · cases he1 : fileExists fs rv.toText
        · simp [firstBad, requiredPathFields, List.find?, hr, hd, he1] at h
          subst h
          exact ⟨by simp [runOp, runMem, hr, hd, he1, Trace.empty],
            "Reference not found: ", "", by simp [runOp, runMem, hr, hd, he1]⟩
        · cases he2 : fileExists fs r1v.toText
          · simp [firstBad, requiredPathFields, List.find?, hr, hd, he1, he2] at h
            subst h
            exact ⟨by simp [runOp, runMem, hr, hd, he1, he2, Trace.empty],
              "Reads file not found: ", "", by simp [runOp, runMem, hr, hd, he1, he2]⟩
          · simp [firstBad, requiredPathFields, List.find?, hr, hd, he1, he2] at h
  case aln =>
    rcases hr : lookupKey args "reference" with _ | rv
    · simp [firstBad, requiredPathFields, List.find?, hr] at h
      subst h
      exact ⟨by simp [runOp, runAln, hr, Trace.empty],
        "Error: \x27", "\x27", by simp [runOp, runAln, hr]⟩
    · rcases hd : lookupKey args "reads" with _ | rdv
      · simp [firstBad, requiredPathFields, List.find?, hr, hd] at h
        subst h
        exact ⟨by simp [runOp, runAln, hr, hd, Trace.empty],
          "Error: \x27", "\x27", by simp [runOp, runAln, hr, hd]⟩
      · cases he1 : fileExists fs rv.toText
        · simp [firstBad, requiredPathFields, List.find?, hr, hd, he1] at h
          subst h
          exact ⟨by simp [runOp, runAln, hr, hd, he1, Trace.empty],
            "Reference not found: ", "", by simp [runOp, runAln, hr, hd, he1]⟩
        · cases he2 : fileExists fs rdv.toText
          · simp [firstBad, requiredPathFields, List.find?, hr, hd, he1, he2] at h
            subst h
            exact ⟨by simp [runOp, runAln, hr, hd, he1, he2, Trace.empty],
              "Reads file not found: ", "", by simp [runOp, runAln, hr, hd, he1, he2]⟩
          · simp [firstBad, requiredPathFields, List.find?, hr, hd, he1, he2] at h
  case samse =>
    rcases hr : lookupKey args "reference" with _ | rv
    · simp [firstBad, requiredPathFields, List.find?, hr] at h
      subst h
      exact ⟨by simp [runOp, runSamse, hr, Trace.empty],
        "Error: \x27", "\x27", by simp [runOp, runSamse, hr]⟩
    · rcases hs1 : lookupKey args "sai_file" with _ | sv
      · simp [firstBad, requiredPathFields, List.find?, hr, hs1] at h
        subst h
        exact ⟨by simp [runOp, runSamse, hr, hs1, Trace.empty],
          "Error: \x27", "\x27", by simp [runOp, runSamse, hr, hs1]⟩
      · rcases hd : lookupKey args "reads" with _ | rdv
        · simp [firstBad, requiredPathFields, List.find?, hr, hs1, hd] at h
          subst h
          exact ⟨by simp [runOp, runSamse, hr, hs1, hd, Trace.empty],
            "Error: \x27", "\x27", by simp [runOp, runSamse, hr, hs1, hd]⟩
        · cases he1 : fileExists fs rv.toText
          · simp [firstBad, requiredPathFields, List.find?, hr, hs1, hd, he1] at h
            subst h
            exact ⟨by simp [runOp, runSamse, hr, hs1, hd, firstAbsent, he1, Trace.empty],
              "File not found: ", "", by simp [runOp, runSamse, hr, hs1, hd, firstAbsent, he1]⟩
          · cases he2 : fileExists fs sv.toText
            · simp [firstBad, requiredPathFields, List.find?, hr, hs1, hd, he1, he2] at h
              subst h
              exact ⟨by simp [runOp, runSamse, hr, hs1, hd, firstAbsent, he1, he2, Trace.empty],
                "File not found: ", "", by simp [runOp, runSamse, hr, hs1, hd, firstAbsent, he1, he2]⟩
            · cases he3 : fileExists fs rdv.toText
              · simp [firstBad, requiredPathFields, List.find?, hr, hs1, hd, he1, he2, he3] at h
                subst h
                exact ⟨by simp [runOp, runSamse, hr, hs1, hd, firstAbsent, he1, he2, he3, Trace.empty],
                  "File not found: ", "", by simp [runOp, runSamse, hr, hs1, hd, firstAbsent, he1, he2, he3]⟩
              · simp [firstBad, requiredPathFields, List.find?, hr, hs1, hd, he1, he2, he3] at h
  case sampe =>
    rcases hr : lookupKey args "reference" with _ | rv
    · simp [firstBad, requiredPathFields, List.find?, hr] at h
      subst h
      exact ⟨by simp [runOp, runSampe, hr, Trace.empty],
        "Error: \x27", "\x27", by simp [runOp, runSampe, hr]⟩
    · rcases hs1 : lookupKey args "sai_file1" with _ | s1v
      · simp [firstBad, requiredPathFields, List.find?, hr, hs1] at h
        subst h
        exact ⟨by simp [runOp, runSampe, hr, hs1, Trace.empty],
          "Error: \x27", "\x27", by simp [runOp, runSampe, hr, hs1]⟩
      · rcases hs2 : lookupKey args "sai_file2" with _ | s2v
        · simp [firstBad, requiredPathFields, List.find?, hr, hs1, hs2] at h
          subst h
          exact ⟨by simp [runOp, runSampe, hr, hs1, hs2, Trace.empty],
            "Error: \x27", "\x27", by simp [runOp, runSampe, hr, hs1, hs2]⟩
        · rcases hd1 : lookupKey args "reads1" with _ | r1v
          · simp [firstBad, requiredPathFields, List.find?, hr, hs1, hs2, hd1] at h
            subst h
            exact ⟨by simp [runOp, runSampe, hr, hs1, hs2, hd1, Trace.empty],
              "Error: \x27", "\x27", by simp [runOp, runSampe, hr, hs1, hs2, hd1]⟩
          · rcases hd2 : lookupKey args "reads2" with _ | r2v
            · simp [firstBad, requiredPathFields, List.find?, hr, hs1, hs2, hd1, hd2] at h
              subst h
              exact ⟨by simp [runOp, runSampe, hr, hs1, hs2, hd1, hd2, Trace.empty],
                "Error: \x27", "\x27", by simp [runOp, runSampe, hr, hs1, hs2, hd1, hd2]⟩
            · cases he1 : fileExists fs rv.toText
              · simp [firstBad, requiredPathFields, List.find?, hr, hs1, hs2, hd1, hd2, he1] at h
                subst h
                exact ⟨by simp [runOp, runSampe, hr, hs1, hs2, hd1, hd2, firstAbsent, he1, Trace.empty],
                  "File not found: ", "", by simp [runOp, runSampe, hr, hs1, hs2, hd1, hd2, firstAbsent, he1]⟩
              · cases he2 : fileExists fs s1v.toText
                · simp [firstBad, requiredPathFields, List.find?, hr, hs1, hs2, hd1, hd2, he1, he2] at h
                  subst h
                  exact ⟨by simp [runOp, runSampe, hr, hs1, hs2, hd1, hd2, firstAbsent, he1, he2, Trace.empty],
                    "File not found: ", "", by simp [runOp, runSampe, hr, hs1, hs2, hd1, hd2, firstAbsent, he1, he2]⟩
                · cases he3 : fileExists fs s2v.toText
                  · simp [firstBad, requiredPathFields, List.find?, hr, hs1, hs2, hd1, hd2, he1, he2, he3] at h
                    subst h
                    exact ⟨by simp [runOp, runSampe, hr, hs1, hs2, hd1, hd2, firstAbsent, he1, he2, he3, Trace.empty],
                      "File not found: ", "", by simp [runOp, runSampe, hr, hs1, hs2, hd1, hd2, firstAbsent, he1, he2, he3]⟩
                  · cases he4 : fileExists fs r1v.toText
                    · simp [firstBad, requiredPathFields, List.find?, hr, hs1, hs2, hd1, hd2, he1, he2, he3, he4] at h
                      subst h
                      exact ⟨by simp [runOp, runSampe, hr, hs1, hs2, hd1, hd2, firstAbsent, he1, he2, he3, he4, Trace.empty],
                        "File not found: ", "", by simp [runOp, runSampe, hr, hs1, hs2, hd1, hd2, firstAbsent, he1, he2, he3, he4]⟩
                    · cases he5 : fileExists fs r2v.toText
                      · simp [firstBad, requiredPathFields, List.find?, hr, hs1, hs2, hd1, hd2, he1, he2, he3, he4, he5] at h
                        subst h
                        exact ⟨by simp [runOp, runSampe, hr, hs1, hs2, hd1, hd2, firstAbsent, he1, he2, he3, he4, he5, Trace.empty],
                          "File not found: ", "", by simp [runOp, runSampe, hr, hs1, hs2, hd1, hd2, firstAbsent, he1, he2, he3, he4, he5]⟩
                      · simp [firstBad, requiredPathFields, List.find?, hr, hs1, hs2, hd1, hd2, he1, he2, he3, he4, he5] at h

/-- C4 witness: a sampe call missing the `sai_file2` parameter is rejected
with an error containing that field name, with no spawn. -/
theorem precondition_first_missing_witness :
    (runOp .sampe {} [("r", 1)] []
      [("reference", .s "r"), ("sai_file1", .s "a")]
      (.completed 0 "" [] 0) "/t").2.spawns = [] ∧
    ∃ a b, (runOp .sampe {} [("r", 1)] []
      [("reference", .s "r"), ("sai_file1", .s "a")]
      (.completed 0 "" [] 0) "/t").1 = .err (a ++ "sai_file2" ++ b) :=
  precondition_first_missing .sampe {} [("r", 1)] []
    [("reference", .s "r"), ("sai_file1", .s "a")]
    (.completed 0 "" [] 0) "/t" "sai_file2" (by decide)

/-- C6: for every operation, when the child exits with a non-zero status,
the error text carries the captured diagnostic stream verbatim — the
response is the error whose text ends, byte-for-byte, with the captured
text. -/
theorem nonzero_exit_reports_diagnostic (op : OpName) (st : ServerSettings)
    (fs fsAfter : FS) (args : Args) (tmp : String) (rc : Int) (et : String)
    (lines : List String) (size : Nat)
    (hrc : rc ≠ 0)
    (hs : (runOp op st fs fsAfter args (.completed rc et lines size) tmp).2.spawns ≠ []) :
    ∃ a, (runOp op st fs fsAfter args (.completed rc et lines size) tmp).1 =
      .err (a ++ et) := by
  revert hs
  cases op <;>
    simp only [runOp, runIndex, runMem, runAln, runSamse, runSampe] <;>
    (repeat' split) <;>
    intro hs <;>
    first
    | exact ⟨_, rfl⟩
    | exact (hs rfl).elim

/-- C6 witness: a concrete backtrack-align call whose child exits 1 with
diagnostic text `boom` reports an error ending in `boom`. -/
theorem nonzero_exit_reports_diagnostic_witness :
    ∃ a, (runOp .aln {} [("ref", 1), ("rd", 1)] []
      [("reference", .s "ref"), ("reads", .s "rd")]
      (.completed 1 "boom" [] 0) "/t").1 = .err (a ++ "boom") :=
  nonzero_exit_reports_diagnostic .aln {} [("ref", 1), ("rd", 1)] []
    [("reference", .s "ref"), ("reads", .s "rd")] "/t" 1 "boom" [] 0
    (by decide) (by decide)

/-- The name of the output file each SAM/SAI-producing handler places in
its temporary directory. -/
def outFileName : OpName → String
  | .aln => "/alignment.sai"
  | _ => "/alignment.sam"

/-- A string is a list-prefix of itself followed by anything. -/
lemma self_prefix_append (s t : String) :
    s.data.isPrefixOf ((s ++ t).data) = true := by
  rw [String.data_append, List.isPrefixOf_iff_prefix]
  exact List.prefix_append _ _

/-- The mem success text contains the output path. -/
lemma memSuccessText_contains (out : String) (size cnt : Nat) (th : String)
    (pd : Bool) : ∃ a b, memSuccessText out size cnt th pd = a ++ out ++ b :=
  ⟨"BWA-MEM alignment completed!\n\n" ++ "Output file: ",
   "\n" ++ "Output size: " ++ fmtComma size ++ " bytes\n" ++
     "Alignment records: " ++ fmtComma cnt ++ "\n" ++
     "Threads used: " ++ th ++ "\n" ++
     "Paired-end: " ++ (if pd then "Yes" else "No"),
   by simp [memSuccessText, String.append_assoc]⟩

/-- The aln success text contains the output path. -/
lemma alnSuccessText_contains (out : String) (size : Nat) :
    ∃ a b, alnSuccessText out size = a ++ out ++ b :=
  ⟨"BWA aln completed!\n\n" ++ "Output SAI file: ",
   "\n" ++ "Output size: " ++ fmtComma size ++ " bytes\n" ++
     "Use bwa_samse/sampe to convert to SAM format",
   by simp [alnSuccessText, String.append_assoc]⟩

/-- The samse success text contains the output path. -/
lemma samseSuccessText_contains (out : String) (size : Nat) :
    ∃ a b, samseSuccessText out size = a ++ out ++ b :=
  ⟨"BWA samse completed!\n\n" ++ "Output SAM file: ",
   "\n" ++ "Output size: " ++ fmtComma size ++ " bytes",
   by simp [samseSuccessText, String.append_assoc]⟩

/-- The sampe success text contains the output path. -/
lemma sampeSuccessText_contains (out : String) (size : Nat) :
    ∃ a b, sampeSuccessText out size = a ++ out ++ b :=
  ⟨"BWA sampe completed!\n\n" ++ "Output SAM file: ",
   "\n" ++ "Output size: " ++ fmtComma size ++ " bytes",
   by simp [sampeSuccessText, String.append_assoc]⟩

/-- C9: on every successful mem/aln/samse/sampe call, the output path in
the success payload lies inside the request-scoped temporary directory,
which is removed before the response reaches the caller — so the named
output file no longer exists when the caller receives the response. -/
theorem success_output_inside_removed_tmpdir (op : OpName) (st : ServerSettings)
    (fs fsAfter : FS) (args : Args) (world : RunOutcome) (tmp t : String)
    (hop : op ≠ .idx)
    (hsucc : (runOp op st fs fsAfter args world tmp).1 = .text t) :
    (∃ a b, t = a ++ (tmp ++ outFileName op) ++ b) ∧
    survives (runOp op st fs fsAfter args world tmp).2 (tmp ++ outFileName op) = false := by
  cases op
  case idx => exact absurd rfl hop
  case mem =>
    revert hsucc
    simp only [runOp, outFileName, runMem]
    (repeat' split) <;> intro hsucc <;>
      first
      | exact Response.noConfusion hsucc
      | · injection hsucc with h
          subst h
          exact ⟨memSuccessText_contains _ _ _ _ _,
            by simp [survives, self_prefix_append]⟩
  case aln =>
    revert hsucc
    simp only [runOp, outFileName, runAln]
    (repeat' split) <;> intro hsucc <;>
      first
      | exact Response.noConfusion hsucc
      | · injection hsucc with h
          subst h
          exact ⟨alnSuccessText_contains _ _,
            by simp [survives, self_prefix_append]⟩
  case samse =>
    revert hsucc
    simp only [runOp, outFileName, runSamse]
    (repeat' split) <;> intro hsucc <;>
      first
      | exact Response.noConfusion hsucc
      | · injection hsucc with h
          subst h
          exact ⟨samseSuccessText_contains _ _,
            by simp [survives, self_prefix_append]⟩
  case sampe =>
    revert hsucc
    simp only [runOp, outFileName, runSampe]
    (repeat' split) <;> intro hsucc <;>
      first
      | exact Response.noConfusion hsucc
      | · injection hsucc with h
          subst h
          exact ⟨sampeSuccessText_contains _ _,
            by simp [survives, self_prefix_append]⟩

/-- C9 witness: a concrete successful samse call names an output path
inside its temporary directory, and that path does not survive the call. -/
theorem success_output_inside_removed_tmpdir_witness :
    (∃ a b, samseSuccessText "/t/alignment.sam" 5 =
      a ++ ("/t" ++ outFileName .samse) ++ b) ∧
    survives (runOp .samse {} [("r", 1), ("s", 1), ("d", 1)] []
      [("reference", .s "r"), ("sai_file", .s "s"), ("reads", .s "d")]
      (.completed 0 "" [] 5) "/t").2 ("/t" ++ outFileName .samse) = false :=
  success_output_inside_removed_tmpdir .samse {} [("r", 1), ("s", 1), ("d", 1)] []
    [("reference", .s "r"), ("sai_file", .s "s"), ("reads", .s "d")]
    (.completed 0 "" [] 5) "/t" (samseSuccessText "/t/alignment.sam" 5)
    (by decide) rfl

end BwaMcp
